import Mathlib

/-!
Verification development for the `sitecloner` repository.

The pipeline's Python sources are shallowly embedded: Python strings become
`List Char` (Python `str` is a sequence of unicode scalar values, exactly
Lean's `Char`), the parts of CPython's `urllib.parse` that the code calls are
re-implemented from the stdlib source (3.11), and each repository function is
translated line by line.  Machine-independent library calls that the claims do
not depend on (NFKC normalisation, the MD5 digest, the unicode `\w`/`\s`
classes of `re`) are taken as explicit function parameters, with the single
documented fact actually used about them (the hex digest emits no `/`)
supplied as a hypothesis.
-/

namespace SC

/-- Python strings modelled as lists of unicode scalar characters. -/
abbrev PyStr := List Char

/-- Coerce a Lean string literal to the model. -/
def pys (s : String) : PyStr := s.data

/-- The single-quote character, `'`. -/
def sq : Char := Char.ofNat 39

/-- Prefix test (`str.startswith`). -/
def beginsWith : PyStr → PyStr → Bool
  | [], _ => true
  | _ :: _, [] => false
  | p :: ps, c :: cs => p = c && beginsWith ps cs

/-- Substring test (Python `sub in s`). -/
def containsSeq (sub : PyStr) : PyStr → Bool
  | [] => sub.isEmpty
  | c :: rest => beginsWith sub (c :: rest) || containsSeq sub rest

/-- Split at the first occurrence of a character (`str.split(sep, 1)`), if present. -/
def splitOnceChar (sep : Char) : PyStr → Option (PyStr × PyStr)
  | [] => none
  | c :: rest =>
    if c = sep then some ([], rest)
    else match splitOnceChar sep rest with
      | none => none
      | some (a, b) => some (c :: a, b)

/-- Split at every occurrence of a character (`str.split(sep)`): `n` separators
give `n+1` pieces, so the empty string yields one empty piece. -/
def splitAllChar (sep : Char) : PyStr → List PyStr
  | [] => [[]]
  | c :: rest =>
    if c = sep then [] :: splitAllChar sep rest
    else match splitAllChar sep rest with
      | [] => [[c]]
      | p :: ps => (c :: p) :: ps

/-- Split at the last occurrence of a character (`str.rsplit(sep, 1)`), if present. -/
def splitAtLastChar (sep : Char) : PyStr → Option (PyStr × PyStr)
  | [] => none
  | c :: rest =>
    match splitAtLastChar sep rest with
    | some (a, b) => some (c :: a, b)
    | none => if c = sep then some ([], rest) else none

/-- Rejoin pieces with a separator (`sep.join`). -/
def joinWith (sep : Char) : List PyStr → PyStr
  | [] => []
  | [p] => p
  | p :: ps => p ++ sep :: joinWith sep ps

/-- Strip characters satisfying `p` from the left (`str.lstrip`). -/
def lstripPred (p : Char → Bool) : PyStr → PyStr
  | [] => []
  | c :: rest => if p c then lstripPred p rest else c :: rest

/-- Strip characters satisfying `p` from the right (`str.rstrip`). -/
def rstripPred (p : Char → Bool) (s : PyStr) : PyStr :=
  (lstripPred p s.reverse).reverse

/-- Strip characters satisfying `p` from both ends (`str.strip`). -/
def stripPred (p : Char → Bool) (s : PyStr) : PyStr :=
  rstripPred p (lstripPred p s)

/-- Python's default whitespace set for `str.strip()` (ASCII portion; the
unicode spaces do not occur in any comparison the claims make). -/
def pyWhite (c : Char) : Bool :=
  c = ' ' || c = '\t' || c = '\n' || c = '\r' || c = Char.ofNat 11 || c = Char.ofNat 12

/-- ASCII lower-casing, applied character-wise (`str.lower`; the full unicode
case map is irrelevant here because every comparison made by the code is
against ASCII literals). -/
def pyLowerChar (c : Char) : Char :=
  if 'A' ≤ c && c ≤ 'Z' then Char.ofNat (c.toNat + 32) else c

/-- ASCII upper-casing, character-wise (`str.upper`). -/
def pyUpperChar (c : Char) : Char :=
  if 'a' ≤ c && c ≤ 'z' then Char.ofNat (c.toNat - 32) else c

/-- `str.lower()`. -/
def pyLower (s : PyStr) : PyStr := s.map pyLowerChar

/-- `str.upper()`. -/
def pyUpper (s : PyStr) : PyStr := s.map pyUpperChar

/-- Python `str.replace(old, new)`: left-to-right, non-overlapping, written
with a structural gas parameter (`gas` starts at the string length and cannot
run out: every step consumes at least one character).  The code never calls
it with an empty `old`; in that degenerate case the input comes back
unchanged. -/
def replaceSeqAux (old new : PyStr) : Nat → PyStr → PyStr
  | 0, s => s
  | _ + 1, [] => []
  | gas + 1, c :: rest =>
    if old ≠ [] && beginsWith old (c :: rest) then
      new ++ replaceSeqAux old new gas ((c :: rest).drop old.length)
    else
      c :: replaceSeqAux old new gas rest

/-- `str.replace(old, new)`. -/
def replaceSeq (old new : PyStr) (s : PyStr) : PyStr :=
  replaceSeqAux old new s.length s

/-- Remove every occurrence of one character (`str.replace(c, '')`). -/
def removeChar (ch : Char) (s : PyStr) : PyStr := s.filter (fun c => c ≠ ch)

/-- Value of one hexadecimal digit, either case (`string.hexdigits`). -/
def fromHexDigit (c : Char) : Option Nat :=
  if '0' ≤ c && c ≤ '9' then some (c.toNat - 48)
  else if 'a' ≤ c && c ≤ 'f' then some (c.toNat - 87)
  else if 'A' ≤ c && c ≤ 'F' then some (c.toNat - 55)
  else none

/-- Tokenise a percent-encoded string: any `%hh` with two hex digits becomes a
byte token, everything else stays a literal character (`unquote_to_bytes`). -/
def pctTokens : PyStr → List (Sum Char Nat)
  | [] => []
  | '%' :: h1 :: h2 :: rest =>
    match fromHexDigit h1, fromHexDigit h2 with
    | some a, some b => Sum.inr (a * 16 + b) :: pctTokens rest
    | _, _ => Sum.inl '%' :: pctTokens (h1 :: h2 :: rest)
  | c :: rest => Sum.inl c :: pctTokens rest

/-- The unicode replacement character U+FFFD used by `errors='replace'`. -/
def uREPL : Char := Char.ofNat 0xFFFD

/-- Is `b` a UTF-8 continuation byte? -/
def isCont (b : Nat) : Bool := 0x80 ≤ b && b < 0xC0

/-- Decode the token stream: literal characters pass through, byte runs are
decoded as UTF-8 with `errors='replace'`.  Decoding proceeds one scalar at a
time; on well-formed sequences this agrees with CPython's run-at-a-time
`bytes.decode('utf-8', 'replace')`, and on malformed ones it emits one
U+FFFD per rejected lead byte just as CPython does in all the cases the
pipeline can reach. -/
def decodeTokensAux : Nat → List (Sum Char Nat) → PyStr
  | 0, _ => []
  | _ + 1, [] => []
  | gas + 1, Sum.inl c :: t => c :: decodeTokensAux gas t
  | gas + 1, Sum.inr b :: t =>
    if b < 0x80 then Char.ofNat b :: decodeTokensAux gas t
    else if b < 0xC2 then uREPL :: decodeTokensAux gas t
    else if b < 0xE0 then
      match t with
      | Sum.inr b1 :: t1 =>
        if isCont b1 then
          Char.ofNat ((b - 0xC0) * 64 + (b1 - 0x80)) :: decodeTokensAux gas t1
        else uREPL :: decodeTokensAux gas t
      | _ => uREPL :: decodeTokensAux gas t
    else if b < 0xF0 then
      match t with
      | Sum.inr b1 :: Sum.inr b2 :: t2 =>
        if isCont b1 && isCont b2 then
          (if (b - 0xE0) * 4096 + (b1 - 0x80) * 64 + (b2 - 0x80) < 0x800 ||
              (0xD800 ≤ (b - 0xE0) * 4096 + (b1 - 0x80) * 64 + (b2 - 0x80) &&
                (b - 0xE0) * 4096 + (b1 - 0x80) * 64 + (b2 - 0x80) < 0xE000)
            then uREPL
            else Char.ofNat ((b - 0xE0) * 4096 + (b1 - 0x80) * 64 + (b2 - 0x80)))
            :: decodeTokensAux gas t2
        else uREPL :: decodeTokensAux gas t
      | _ => uREPL :: decodeTokensAux gas t
    else if b < 0xF5 then
      match t with
      | Sum.inr b1 :: Sum.inr b2 :: Sum.inr b3 :: t3 =>
        if isCont b1 && isCont b2 && isCont b3 then
          (if (b - 0xF0) * 262144 + (b1 - 0x80) * 4096 + (b2 - 0x80) * 64 + (b3 - 0x80)
                < 0x10000 ||
              0x110000 ≤ (b - 0xF0) * 262144 + (b1 - 0x80) * 4096 +
                (b2 - 0x80) * 64 + (b3 - 0x80)
            then uREPL
            else Char.ofNat ((b - 0xF0) * 262144 + (b1 - 0x80) * 4096 +
              (b2 - 0x80) * 64 + (b3 - 0x80)))
            :: decodeTokensAux gas t3
        else uREPL :: decodeTokensAux gas t
      | _ => uREPL :: decodeTokensAux gas t
    else uREPL :: decodeTokensAux gas t

/-- Decode a token stream (entry point: the gas equals the stream length and
cannot run out, since every step consumes at least one token). -/
def decodeTokens (toks : List (Sum Char Nat)) : PyStr :=
  decodeTokensAux toks.length toks

/-- `urllib.parse.unquote(s)` with UTF-8 and `errors='replace'`. -/
def pyUnquote (s : PyStr) : PyStr := decodeTokens (pctTokens s)

/-- Result of `urlsplit`. -/
structure SplitResult where
  scheme : PyStr
  netloc : PyStr
  path : PyStr
  query : PyStr
  fragment : PyStr
deriving Repr, DecidableEq

/-- Result of `urlparse` (adds the path parameters component). -/
structure ParseResult where
  scheme : PyStr
  netloc : PyStr
  path : PyStr
  params : PyStr
  query : PyStr
  fragment : PyStr
deriving Repr, DecidableEq

/-- `_WHATWG_C0_CONTROL_OR_SPACE`: code points `\x00`–`\x20`. -/
def c0OrSpace (c : Char) : Bool := c.toNat ≤ 0x20

/-- `scheme_chars`: ASCII letters, digits, and `+-.`. -/
def schemeChar (c : Char) : Bool :=
  ('a' ≤ c && c ≤ 'z') || ('A' ≤ c && c ≤ 'Z') || ('0' ≤ c && c ≤ '9') ||
    c = '+' || c = '-' || c = '.'

/-- ASCII alphabetic test (`url[0].isascii() and url[0].isalpha()`). -/
def asciiAlpha (c : Char) : Bool := ('a' ≤ c && c ≤ 'z') || ('A' ≤ c && c ≤ 'Z')

/-- `_splitnetloc`: the authority runs up to the first of `/?#`. -/
def splitnetloc (s : PyStr) : PyStr × PyStr :=
  (s.takeWhile (fun c => c ≠ '/' && c ≠ '?' && c ≠ '#'),
   s.dropWhile (fun c => c ≠ '/' && c ≠ '?' && c ≠ '#'))

/-- `urlsplit(url, scheme)` from CPython 3.11.  `none` models the `ValueError`
raised on a bracket-unbalanced authority.  (The NFKC check of `_checknetloc`
and the bracketed-host validation, which can also raise on exotic non-ASCII
or bracketed authorities, are not modelled; no claim depends on them.) -/
def urlsplit (url0 : PyStr) (defaultScheme : PyStr := []) : Option SplitResult :=
  let url1 := (lstripPred c0OrSpace url0).filter
    (fun c => c ≠ '\t' && c ≠ '\r' && c ≠ '\n')
  let dflt := (stripPred c0OrSpace defaultScheme).filter
    (fun c => c ≠ '\t' && c ≠ '\r' && c ≠ '\n')
  let schemeUrl : PyStr × PyStr :=
    match splitOnceChar ':' url1 with
    | some (pre, post) =>
      if pre ≠ [] && asciiAlpha (pre.headD ' ') && pre.all schemeChar then
        (pyLower pre, post)
      else (dflt, url1)
    | none => (dflt, url1)
  let scheme := schemeUrl.1
  let rest0 := schemeUrl.2
  let netlocRest : Option (PyStr × PyStr) :=
    if beginsWith (pys "//") rest0 then
      let nr := splitnetloc (rest0.drop 2)
      if (nr.1.contains '[' && !nr.1.contains ']') ||
         (nr.1.contains ']' && !nr.1.contains '[') then none
      else some nr
    else some ([], rest0)
  match netlocRest with
  | none => none
  | some (netloc, rest1) =>
    let fragSplit : PyStr × PyStr :=
      match splitOnceChar '#' rest1 with
      | some (a, b) => (a, b)
      | none => (rest1, [])
    let querySplit : PyStr × PyStr :=
      match splitOnceChar '?' fragSplit.1 with
      | some (a, b) => (a, b)
      | none => (fragSplit.1, [])
    some ⟨scheme, netloc, querySplit.1, querySplit.2, fragSplit.2⟩

/-- `uses_params` (3.11). -/
def usesParams : List PyStr :=
  [pys "", pys "ftp", pys "hdl", pys "prospero", pys "http", pys "imap",
   pys "https", pys "shttp", pys "rtsp", pys "rtsps", pys "rtspu", pys "sip",
   pys "sips", pys "mms", pys "sftp", pys "tel"]

/-- `_splitparams`: split path parameters off the last path segment. -/
def splitparams (u : PyStr) : PyStr × PyStr :=
  if u.contains '/' then
    match splitAtLastChar '/' u with
    | some (pre, post) =>
      match splitOnceChar ';' post with
      | some (a, b) => (pre ++ '/' :: a, b)
      | none => (u, [])
    | none => (u, [])
  else
    match splitOnceChar ';' u with
    | some (a, b) => (a, b)
    | none => (u, [])

/-- `urlparse(url, scheme)`. -/
def urlparse (url : PyStr) (defaultScheme : PyStr := []) : Option ParseResult :=
  match urlsplit url defaultScheme with
  | none => none
  | some r =>
    if usesParams.contains r.scheme && r.path.contains ';' then
      let pp := splitparams r.path
      some ⟨r.scheme, r.netloc, pp.1, pp.2, r.query, r.fragment⟩
    else
      some ⟨r.scheme, r.netloc, r.path, [], r.query, r.fragment⟩

/-- Library functions the source calls whose full unicode behaviour is
irrelevant to every claim: they are taken as parameters.  `md5hex` stands for
`hashlib.md5(s.encode('utf-8')).hexdigest()` (lowercase hex output — the one
fact used is recorded as a hypothesis where needed), `nfkc` for
`unicodedata.normalize('NFKC', s)`, and `wChar`/`sChar` for membership in the
`\w` and `\s` classes of Python's `re` module. -/
structure LibParams where
  nfkc : PyStr → PyStr
  md5hex : PyStr → PyStr
  wChar : Char → Bool
  sChar : Char → Bool

/-- ASCII instantiation of `LibParams` used to evaluate concrete witnesses:
identity NFKC, a fixed digest, ASCII word and space classes. -/
def asciiParams : LibParams where
  nfkc := id
  md5hex := fun _ => pys "0123456789abcdef0123456789abcdef"
  wChar := fun c => ('a' ≤ c && c ≤ 'z') || ('A' ≤ c && c ≤ 'Z') ||
    ('0' ≤ c && c ≤ '9') || c = '_'
  sChar := pyWhite

/-- `str.endswith(c)` for one character. -/
def endsWithChar (c : Char) (s : PyStr) : Bool := s.getLast? = some c

/-- `PurePosixPath(p).name`: the final non-empty, non-dot component. -/
def pathlibName (path : PyStr) : PyStr :=
  ((splitAllChar '/' path).filter (fun c => c ≠ [] && c ≠ pys ".")).getLastD []

/-- `PurePosixPath(p).suffix`. -/
def pathlibSuffix (path : PyStr) : PyStr :=
  let name := pathlibName path
  match splitAtLastChar '.' name with
  | some (pre, post) =>
    if pre ≠ [] && post ≠ [] then '.' :: post else []
  | none => []

/-- `URLResolver.should_process_for_assets` (a raising `urlparse` would
propagate; modelled as `false`, unreachable for canonical inputs). -/
def should_process_for_assets (url : PyStr) : Bool :=
  match urlparse url with
  | none => false
  | some p =>
    let ext := pyLower (pathlibSuffix p.path)
    [pys ".html", pys ".htm", pys ".xhtml", pys ".css", pys ".scss",
     pys ".sass", pys ".js", pys ".json", pys ".xml", pys ".svg"].contains ext

/-- The `windows_reserved` device-name set. -/
def windowsReserved : List PyStr :=
  [pys "CON", pys "PRN", pys "AUX", pys "NUL", pys "COM1", pys "COM2",
   pys "COM3", pys "COM4", pys "COM5", pys "COM6", pys "COM7", pys "COM8",
   pys "COM9", pys "LPT1", pys "LPT2", pys "LPT3", pys "LPT4", pys "LPT5",
   pys "LPT6", pys "LPT7", pys "LPT8", pys "LPT9"]

/-- Python prefix slice `s[:k]` where `k` may be negative. -/
def pySlice (k : Int) (s : PyStr) : PyStr :=
  if 0 ≤ k then s.take k.toNat
  else s.take (s.length - min s.length k.natAbs)

/-- `URLResolver._secure_sanitize_filename`. -/
def secure_sanitize_filename (P : LibParams) (filename0 : PyStr) : PyStr :=
  if filename0 = [] then pys "unnamed"
  else
    let f1 := P.nfkc filename0
    let f2 := removeChar '\r' (removeChar '\n' (removeChar (Char.ofNat 0) f1))
    let s1 := f2.map (fun c => if P.wChar c || P.sChar c || c = '.' || c = '-' then c else '_')
    let s2 := s1.filter (fun c => !(c.toNat ≤ 0x1f || c.toNat = 0x7f))
    let s3 := replaceSeq (pys "..") (pys "_") s2
    let s4 := replaceSeq (pys "/") (pys "_") s3
    let s5 := replaceSeq (pys "\\") (pys "_") s4
    let s6 := stripPred (fun c => c = '.' || c = ' ') s5
    let s7 := if windowsReserved.contains (pyUpper s6) then '_' :: s6 else s6
    let s8 :=
      if 100 < s7.length then
        if s7.contains '.' then
          match splitAtLastChar '.' s7 with
          | some (name, ext) =>
            pySlice ((100 : Int) - ext.length - 1) name ++ '.' :: ext
          | none => s7.take 100
        else s7.take 100
      else s7
    if s8 = [] || s8 = pys "." then pys "unnamed" else s8

/-- `URLResolver._sanitize_extension`. -/
def sanitize_extension (extension : PyStr) : PyStr :=
  if extension = [] then pys "html"
  else
    let ext := (pyLower extension).filter
      (fun c => ('a' ≤ c && c ≤ 'z') || ('0' ≤ c && c ≤ '9'))
    let ext2 := if 10 < ext.length then ext.take 10 else ext
    if ext2 = [] then pys "html" else ext2

/-- `URLResolver._has_valid_extension`. -/
def has_valid_extension (filename : PyStr) : Bool :=
  if !filename.contains '.' then false
  else
    let ext := pyLower ((splitAllChar '.' filename).getLastD [])
    [pys "html", pys "htm", pys "css", pys "js", pys "json", pys "xml",
     pys "txt", pys "svg", pys "jpg", pys "jpeg", pys "png", pys "gif",
     pys "webp", pys "ico", pys "bmp", pys "woff", pys "woff2", pys "ttf",
     pys "otf", pys "eot", pys "mp4", pys "webm", pys "mp3", pys "wav",
     pys "pdf", pys "zip"].contains ext

/-- `URLResolver._is_binary_extension`. -/
def is_binary_extension (filename : PyStr) : Bool :=
  if !filename.contains '.' then false
  else
    let ext := pyLower ((splitAllChar '.' filename).getLastD [])
    [pys "jpg", pys "jpeg", pys "png", pys "gif", pys "webp", pys "ico",
     pys "bmp", pys "tiff", pys "woff", pys "woff2", pys "ttf", pys "otf",
     pys "eot", pys "mp4", pys "webm", pys "mp3", pys "wav", pys "pdf",
     pys "zip", pys "exe", pys "dll"].contains ext

/-- `URLResolver._create_safe_fallback_name`. -/
def create_safe_fallback_name (P : LibParams) (url : PyStr) : PyStr :=
  pys "safe_file_" ++ (P.md5hex url).take 12 ++ pys ".html"

/-- `PurePosixPath(a, b, ...)` joined onto an (already absolute) directory:
a part beginning with `/` resets the path to the filesystem root; otherwise
its slash-separated, non-empty, non-`.` components are appended.  Paths are
modelled as component lists measured from the filesystem root. -/
def pathOfParts (outputDir : List PyStr) (parts : List PyStr) : List PyStr :=
  parts.foldl
    (fun acc p =>
      let comps := (splitAllChar '/' p).filter (fun c => c ≠ [] && c ≠ pys ".")
      if beginsWith (pys "/") p then comps else acc ++ comps)
    outputDir

/-- Lexical `Path.resolve()`: `..` pops, `.` disappears (symbolic links are
filesystem state outside this embedding). -/
def resolveLex (p : List PyStr) : List PyStr :=
  p.foldl
    (fun acc c =>
      if c = pys ".." then acc.dropLast
      else if c = pys "." then acc
      else acc ++ [c])
    []

/-- Component-list prefix test: `child.relative_to(root)` succeeds exactly
when `root`'s components lead `child`'s. -/
def listLeads : List PyStr → List PyStr → Bool
  | [], _ => true
  | _ :: _, [] => false
  | a :: as_, b :: bs => a = b && listLeads as_ bs

/-- The candidate path assembly of `url_to_local_path` (everything between
the base-URL shortcut and the containment verification). -/
def local_path_candidate (P : LibParams) (parsed : ParseResult)
    (outputDir : List PyStr) : List PyStr :=
      let domain0 := secure_sanitize_filename P parsed.netloc
      let domain := if domain0 = [] then pys "unknown_domain" else domain0
      let pathParts0 := [domain]
      let pathParts1 :=
        if parsed.path ≠ [] && parsed.path ≠ pys "/" then
          let decoded := pyUnquote parsed.path
          let comps := (splitAllChar '/' decoded).filter (fun c => c ≠ [])
          pathParts0 ++ (comps.map (secure_sanitize_filename P)).filter
            (fun sc => sc ≠ [] && sc ≠ pys "." && sc ≠ pys "..")
        else pathParts0
      let pathParts2 :=
        if parsed.query ≠ [] then
          match pathParts1.getLast?, pathParts1.dropLast with
          | some last, init =>
            let h := (P.md5hex parsed.query).take 8
            if last.contains '.' then
              match splitAtLastChar '.' last with
              | some (name, ext0) =>
                let ext := sanitize_extension ext0
                init ++ [name ++ pys "_q" ++ h ++ '.' :: ext]
              | none => pathParts1
            else init ++ [last ++ pys "_q" ++ h ++ pys ".html"]
          | none, _ => pathParts1
        else pathParts1
      let lastP := pathParts2.getLastD []
      let pathParts3 :=
        if pathParts2 = [] || lastP = [] || !lastP.contains '.' then
          pathParts2 ++ [pys "index.html"]
        else if !has_valid_extension lastP then
          if !is_binary_extension lastP then
            pathParts2.dropLast ++ [lastP ++ pys ".html"]
          else pathParts2
        else pathParts2
      pathOfParts outputDir pathParts3

/-- `URLResolver.url_to_local_path`; `none` models the uncaught `ValueError`
a raising `urlparse` would propagate to the caller. -/
def url_to_local_path (P : LibParams) (base_url url : PyStr)
    (outputDir : List PyStr) : Option (List PyStr) :=
  match urlparse url with
  | none => none
  | some parsed =>
    if url = base_url then some (outputDir ++ [pys "index.html"])
    else
      let localPath := local_path_candidate P parsed outputDir
      if listLeads (resolveLex outputDir) (resolveLex localPath) then
        some localPath
      else some (outputDir ++ [create_safe_fallback_name P url])

/-! The repository's `url_rewriter.py` (the stylesheet path).  The
`url_mapping` dictionary is an association list; `BeautifulSoup` document
rewriting is outside this embedding, which covers `_rewrite_single_url`,
`_calculate_relative_path`, `_rewrite_css_content` and `rewrite_css_file`. -/

/-- One regex match of `url\s*\(\s*["\']?([^"\')]+)["\']?\s*\)`. -/
structure UrlTokenMatch where
  g1 : PyStr
  matched : PyStr
  rest : PyStr
deriving Repr, DecidableEq

/-- Is this a CSS quote character (`"` or `'`)? -/
def cssQuote (c : Char) : Bool := c = '"' || c = sq

/-- The `[^"\')]` character class of the scanner. -/
def cssBody (c : Char) : Bool := !(c = '"' || c = sq || c = ')')

/-- `s.takeWhile p` paired with the rest. -/
def reSpan (p : Char → Bool) (s : PyStr) : PyStr × PyStr :=
  (s.takeWhile p, s.dropWhile p)

/-- The `\s*\(` portion of the scanner: whitespace, then the literal `(`.
This `\s*` cannot usefully backtrack: handing a character back would force
`\(` to match a whitespace character.  Returns the rest on success. -/
def munchParen (s : PyStr) : Option PyStr :=
  match (reSpan pyWhite s).2 with
  | '(' :: s2 => some s2
  | _ => none

/-- The `["\']?\s*\)` portion of the scanner: an optional quote, whitespace,
the literal `)`.  Returns the rest on success. -/
def munchCloseCore (t : PyStr) : Option PyStr :=
  match (reSpan pyWhite t).2 with
  | ')' :: s8 => some s8
  | _ => none

def munchClose (s : PyStr) : Option PyStr :=
  munchCloseCore (match s with
    | c :: t => if cssQuote c then t else c :: t
    | [] => [])

/-- The tail `\s*["\']?([^"\')]+)["\']?\s*\)` of the pattern after the
literal `(`, determinised by a case analysis of CPython's backtracking
order; returns the group-1 text and the rest after `)` on success.  The
engine first commits the maximal whitespace run to the leading `\s*` and
explores every completion from there; only when all of those fail does it
hand the final whitespace character back, where `[^"\')]+` picks it up
(whitespace belongs to the body class).  That handback succeeds exactly
when the maximal-run reading left the group empty while a `)` — or a quote
followed by `)` — comes next, making the group that single whitespace
character (`url(  )` matches with group `' '`, `url( ')` with group
`' '`).  Deeper handbacks only repeat the same closing position, and a
shortened body likewise re-reads `)` at an unchanged position, so every
other failure of the maximal reading is final. -/
def afterParen (t : PyStr) : Option (PyStr × PyStr) :=
  match (reSpan pyWhite t).2 with
  | [] => none
  | c :: u2 =>
    if cssQuote c then
      if (reSpan cssBody u2).1 ≠ [] then
        match munchClose (reSpan cssBody u2).2 with
        | some s8 => some ((reSpan cssBody u2).1, s8)
        | none => none
      else
        match (reSpan pyWhite t).1.getLast?, u2 with
        | some wc, c2 :: tail => if c2 = ')' then some ([wc], tail) else none
        | _, _ => none
    else if c = ')' then
      match (reSpan pyWhite t).1.getLast? with
      | some wc => some ([wc], u2)
      | none => none
    else
      if (reSpan cssBody (c :: u2)).1 ≠ [] then
        match munchClose (reSpan cssBody (c :: u2)).2 with
        | some s8 => some ((reSpan cssBody (c :: u2)).1, s8)
        | none => none
      else none

/-- Attempt to match `url\s*\(\s*["\']?([^"\')]+)["\']?\s*\)` (IGNORECASE)
at the head of `s`, hand-compiled from the regex with the backtracking of
the post-`(` whitespace determinised in `afterParen`. -/
def tryUrlMatch (s : PyStr) : Option UrlTokenMatch :=
  match s with
  | u :: r0 :: l0 :: rest0 =>
    if pyLowerChar u = 'u' && pyLowerChar r0 = 'r' && pyLowerChar l0 = 'l' then
      match munchParen rest0 with
      | none => none
      | some t =>
        match afterParen t with
        | none => none
        | some gr => some ⟨gr.1, s.take (s.length - gr.2.length), gr.2⟩
    else none
  | _ => none

theorem dropWhile_len_le (p : Char → Bool) (l : List Char) :
    (l.dropWhile p).length ≤ l.length :=
  List.Sublist.length_le (List.dropWhile_sublist p)

theorem optQuote_len_le (s : PyStr) :
    (match s with
      | c :: t => if cssQuote c then t else c :: t
      | [] => ([] : PyStr)).length ≤ s.length := by
  match s with
  | [] => simp
  | c :: t =>
    by_cases hq : cssQuote c
    · simp [hq]
    · simp [hq]

theorem munchParen_len {s r : PyStr} (h : munchParen s = some r) :
    r.length < s.length := by
  unfold munchParen at h
  split at h
  case h_2 => exact absurd h (by simp)
  case h_1 s2 heq =>
    simp only [Option.some.injEq] at h
    subst h
    have := dropWhile_len_le pyWhite s
    rw [show (reSpan pyWhite s).2 = s.dropWhile pyWhite from rfl] at heq
    rw [heq] at this
    simp only [List.length_cons] at this
    omega

theorem munchClose_aux {t r : PyStr}
    (h : munchCloseCore t = some r) : r.length < t.length + 1 := by
  unfold munchCloseCore at h
  split at h
  case h_2 => exact absurd h (by simp)
  case h_1 s8 heq =>
    simp only [Option.some.injEq] at h
    subst h
    have h1 := dropWhile_len_le pyWhite t
    rw [show (reSpan pyWhite t).2 = t.dropWhile pyWhite from rfl] at heq
    rw [heq] at h1
    simp only [List.length_cons] at h1
    omega

theorem munchClose_len {s r : PyStr} (h : munchClose s = some r) :
    r.length < s.length + 1 := by
  unfold munchClose at h
  match s with
  | [] => simpa using munchClose_aux h
  | c :: t =>
    by_cases hq : cssQuote c
    · simp only [hq, if_pos] at h
      have := munchClose_aux h
      simp only [List.length_cons]
      omega
    · simp only [hq, Bool.false_eq_true, if_neg, not_false_iff] at h
      exact munchClose_aux h

theorem optQuote_suffix (s : PyStr) :
    (match s with
      | c :: t => if cssQuote c then t else c :: t
      | [] => ([] : PyStr)) <:+ s := by
  match s with
  | [] => simp
  | c :: t =>
    by_cases hq : cssQuote c
    · simp only [hq, if_pos]
      exact List.suffix_cons c t
    · simp [hq]

theorem munchClose_core_suffix {t r : PyStr} (h : munchCloseCore t = some r) :
    r <:+ t := by
  unfold munchCloseCore at h
  split at h
  case h_2 => exact absurd h (by simp)
  case h_1 s8 heq =>
    simp only [Option.some.injEq] at h
    subst h
    have hd : (reSpan pyWhite t).2 <:+ t := List.dropWhile_suffix pyWhite
    rw [heq] at hd
    exact List.IsSuffix.trans (List.suffix_cons ')' s8) hd

theorem munchClose_suffix {s r : PyStr} (h : munchClose s = some r) : r <:+ s := by
  unfold munchClose at h
  exact (munchClose_core_suffix h).trans (optQuote_suffix s)

/-- The rest of a successful post-`(` match is a suffix of its input. -/
theorem afterParen_rest_suffix {t : PyStr} {gr : PyStr × PyStr}
    (h : afterParen t = some gr) : gr.2 <:+ t := by
  have hwt : (reSpan pyWhite t).2 <:+ t := List.dropWhile_suffix pyWhite
  unfold afterParen at h
  split at h
  case h_1 => exact absurd h (by simp)
  case h_2 c u2 heq =>
    rw [heq] at hwt
    have hu2 : u2 <:+ t := (List.suffix_cons c u2).trans hwt
    split at h
    · split at h
      · split at h
        case h_1 s8 hclose =>
          simp only [Option.some.injEq] at h
          subst h
          exact (((munchClose_suffix hclose).trans
            (List.dropWhile_suffix cssBody)).trans hu2)
        case h_2 => exact absurd h (by simp)
      · split at h
        case h_1 =>
          rename_i wc c2 tail heqL hbe
          split at h
          · simp only [Option.some.injEq] at h
            subst h
            exact (List.suffix_cons c2 tail).trans hu2
          · exact absurd h (by simp)
        case h_2 => exact absurd h (by simp)
    · split at h
      · split at h
        case h_1 =>
          rename_i wc heqL
          simp only [Option.some.injEq] at h
          subst h
          exact hu2
        case h_2 => exact absurd h (by simp)
      · split at h
        · split at h
          case h_1 s8 hclose =>
            simp only [Option.some.injEq] at h
            subst h
            exact ((munchClose_suffix hclose).trans
              (List.dropWhile_suffix cssBody)).trans hwt
          case h_2 => exact absurd h (by simp)
        · exact absurd h (by simp)

/-- A successful match consumes at least the `url(` prefix, so the rest is
strictly shorter. -/
theorem tryUrlMatch_rest_lt {s : PyStr} {m : UrlTokenMatch}
    (h : tryUrlMatch s = some m) : m.rest.length < s.length := by
  match s with
  | [] => simp [tryUrlMatch] at h
  | [a] => simp [tryUrlMatch] at h
  | [a, b] => simp [tryUrlMatch] at h
  | u :: r0 :: l0 :: rest0 =>
    unfold tryUrlMatch at h
    simp only at h
    split at h
    case isFalse => exact absurd h (by simp)
    case isTrue =>
      split at h
      case h_1 => exact absurd h (by simp)
      case h_2 t hparen =>
        split at h
        case h_1 => exact absurd h (by simp)
        case h_2 gr hafter =>
          simp only [Option.some.injEq] at h
          have hrest : m.rest = gr.2 := by rw [← h]
          have l1 : gr.2.length ≤ t.length :=
            (afterParen_rest_suffix hafter).length_le
          have l2 : t.length < rest0.length := munchParen_len hparen
          rw [hrest]
          simp only [List.length_cons]
          omega

/-- `str(n)` for a natural number. -/
def natPy (n : Nat) : PyStr := Nat.toDigits 10 n

/-- `str.endswith(suffix)`. -/
def endsWithSeq (suf s : PyStr) : Bool := beginsWith suf.reverse s.reverse

/-- The fields of `SiteClonerConfig` the downloader and filters read, with
the dataclass defaults. -/
structure SiteClonerConfig where
  max_retries : Nat := 5
  overwrite_existing : Bool := false
  allowed_extensions : List PyStr :=
    [pys ".html", pys ".htm", pys ".css", pys ".js", pys ".json", pys ".jpg",
     pys ".jpeg", pys ".png", pys ".gif", pys ".svg", pys ".webp", pys ".ico",
     pys ".woff", pys ".woff2", pys ".ttf", pys ".otf", pys ".eot",
     pys ".mp4", pys ".webm", pys ".mp3", pys ".wav", pys ".pdf", pys ".xml",
     pys ".txt", pys ".manifest"]
  blocked_extensions : List PyStr := []
  max_file_size : Nat := 100 * 1024 * 1024
  allowed_domains : List PyStr := []
  blocked_domains : List PyStr := []

/-- `SiteClonerConfig.should_download_file`.  (`urlparse` cannot raise here
in any reachable call: the URL was already parsed by `url_to_local_path`.) -/
def should_download_file (cfg : SiteClonerConfig) (url : PyStr)
    (file_size : Option Nat) : Bool :=
  match urlparse url with
  | none => false
  | some parsed =>
    let ext0 := pyLower (pathlibSuffix parsed.path)
    let ext :=
      if ext0 = [] && (parsed.path = [] || parsed.path = pys "/" ||
          endsWithChar '/' parsed.path) then pys ".html"
      else ext0
    if cfg.allowed_extensions ≠ [] && ext ≠ [] &&
       !cfg.allowed_extensions.contains ext then false
    else if cfg.blocked_extensions.contains ext then false
    else if (match file_size with
      | some n => n ≠ 0 && cfg.max_file_size < n
      | none => false) then false
    else
      let domain := pyLower parsed.netloc
      if cfg.blocked_domains ≠ [] && cfg.blocked_domains.contains domain then false
      else if cfg.allowed_domains ≠ [] && !cfg.allowed_domains.contains domain then false
      else true

/-- `DownloadResult` (the timestamp field is wall-clock noise and omitted). -/
structure DownloadResult where
  success : Bool
  local_path : Option (List PyStr)
  error : Option PyStr
  file_size : Nat
  content_type : Option PyStr
deriving Repr, DecidableEq

/-- One HTTP attempt's observable outcome, as the downloader sees it. -/
structure FetchResp where
  timeout : Bool
  excMsg : Option PyStr
  status : Nat
  reason : PyStr
  contentLength : Option Nat
  contentType : PyStr
  bodyBytes : Nat
deriving Repr, DecidableEq

/-- The downloader's effect environment: responses per (URL, attempt index),
existing file sizes at local paths, available memory, free disk space
(`none` models the probe itself raising, which the source treats as "enough"). -/
structure FetchEnv where
  resp : PyStr → Nat → FetchResp
  fsize : List PyStr → Option Nat
  availMem : Nat
  freeDisk : Option Nat

/-- `DownloadManager.check_disk_space`: `free > required * 1.2`, written
rationally (`5·free > 6·required`; the source computes `required * 1.2` in
binary floating point, identical at every magnitude a claim touches). -/
def check_disk_space (env : FetchEnv) (required : Nat) : Bool :=
  match env.freeDisk with
  | none => true
  | some free => 6 * required < 5 * free

/-- `f"HTTP {status}: {reason}"`. -/
def http_error_msg (status : Nat) (reason : PyStr) : PyStr :=
  pys "HTTP " ++ natPy status ++ pys ": " ++ reason

/-- Absolute difference. -/
def natDist (a b : Nat) : Nat := max a b - min a b

/-- Python truthiness of the declared length (`if file_size:`). -/
def lenTruthy : Option Nat → Bool
  | none => false
  | some n => n ≠ 0

/-- Outcome of `_download_single_url`, with two ghost observations used only
in statements: how many HTTP requests were issued (including alternate-URL
restarts) and the declared content length of the attempt that succeeded by
downloading (`none` for a cache hit or a failure). -/
structure DlOut where
  res : DownloadResult
  attemptsMade : Nat
  declared : Option Nat
deriving Repr, DecidableEq

/-- Add one issued request to the ghost attempt counter. -/
def bumpAttempt (o : DlOut) : DlOut :=
  { o with attemptsMade := o.attemptsMade + 1 }

/-- The retry loop of `DownloadManager._download_single_url`.  `attempt` is
the loop index, `remaining` the iterations left (`max_retries + 1 - attempt`).
`alt` performs the whole-function restart of the 404 alternate-URL handling
(`return await self._download_single_url(session, alt_url, output_dir)`);
`none` — which only the restart-depth bound below ever passes — skips the
alternate branch. -/
def download_attempt_step (cfg : SiteClonerConfig) (env : FetchEnv)
    (toLocal : PyStr → Option (List PyStr)) (alt : Option (PyStr → DlOut))
    (url : PyStr) (attempt : Nat) (retry : DlOut) : DlOut :=
    match toLocal url with
    | none =>
      -- a raising `url_to_local_path` lands in `except Exception` → retry
      if attempt < cfg.max_retries then retry
      else ⟨⟨false, none, some (pys "Download error: invalid URL"), 0, none⟩, 0, none⟩
    | some local_path =>
      if (env.fsize local_path).isSome && !cfg.overwrite_existing &&
          0 < (env.fsize local_path).getD 0 then
        ⟨⟨true, some local_path, none, (env.fsize local_path).getD 0, none⟩, 0, none⟩
      else
        if (env.resp url attempt).timeout then
          if attempt < cfg.max_retries then
            bumpAttempt retry
          else
            ⟨⟨false, none, some (pys "Download timeout (attempt " ++
              natPy (attempt + 1) ++ pys ")"), 0, none⟩, 1, none⟩
        else
          match (env.resp url attempt).excMsg with
          | some e =>
            if attempt < cfg.max_retries then
              bumpAttempt retry
            else ⟨⟨false, none, some (pys "Download error: " ++ e), 0, none⟩, 1, none⟩
          | none =>
            if !should_download_file cfg url (env.resp url attempt).contentLength then
              ⟨⟨false, none, some (pys "File filtered by configuration"), 0, none⟩, 1, none⟩
            else if 400 ≤ (env.resp url attempt).status then
              match alt, (env.resp url attempt).status = 404 && url.contains '?' &&
                  attempt = 0,
                  (env.resp url attempt).status = 404 && endsWithChar '/' url &&
                  attempt = 1 with
              | some f, true, _ =>
                bumpAttempt (f (url.takeWhile (fun c => c ≠ '?')))
              | some f, false, true =>
                bumpAttempt (f (url ++ pys "index.html"))
              | _, _, _ =>
                if attempt < cfg.max_retries then
                  bumpAttempt retry
                else
                  ⟨⟨false, none, some (http_error_msg (env.resp url attempt).status
                    (env.resp url attempt).reason), 0, none⟩, 1, none⟩
            else
              if lenTruthy (env.resp url attempt).contentLength &&
                 (100 * 1024 * 1024 < ((env.resp url attempt).contentLength).getD 0 &&
                   env.availMem < 10 * ((env.resp url attempt).contentLength).getD 0) then
                ⟨⟨false, none, some (pys "File too large for available memory: " ++
                  natPy (((env.resp url attempt).contentLength).getD 0) ++
                  pys " bytes"), 0, none⟩, 1, none⟩
              else if lenTruthy (env.resp url attempt).contentLength &&
                  !check_disk_space env (((env.resp url attempt).contentLength).getD 0) then
                ⟨⟨false, none, some (pys "Insufficient disk space"), 0, none⟩, 1, none⟩
              else
                if (env.resp url attempt).bodyBytes = 0 then
                  if attempt < cfg.max_retries then
                    bumpAttempt retry
                  else
                    ⟨⟨false, none, some (pys "Downloaded file is empty"), 0, none⟩, 1, none⟩
                else if lenTruthy (env.resp url attempt).contentLength &&
                    1024 < natDist (env.resp url attempt).bodyBytes
                      (((env.resp url attempt).contentLength).getD 0) then
                  if attempt < cfg.max_retries then
                    bumpAttempt retry
                  else
                    ⟨⟨false, none, some (pys "Size mismatch: expected " ++
                      natPy (((env.resp url attempt).contentLength).getD 0) ++
                      pys ", got " ++ natPy (env.resp url attempt).bodyBytes),
                      0, none⟩, 1, none⟩
                else
                  ⟨⟨true, some local_path, none, (env.resp url attempt).bodyBytes,
                    some (env.resp url attempt).contentType⟩,
                    1, (env.resp url attempt).contentLength⟩

/-- The `for attempt in range(max_retries + 1)` loop: run the step at each
index, retrying with the next attempt while iterations remain. -/
def download_attempt_loop (cfg : SiteClonerConfig) (env : FetchEnv)
    (toLocal : PyStr → Option (List PyStr)) (alt : Option (PyStr → DlOut)) :
    PyStr → Nat → Nat → DlOut
  | _, _, 0 => ⟨⟨false, none, some (pys "Max retries exceeded"), 0, none⟩, 0, none⟩
  | url, attempt, remaining + 1 =>
    download_attempt_step cfg env toLocal alt url attempt
      (download_attempt_loop cfg env toLocal alt url (attempt + 1) remaining)

/-- `DownloadManager._download_single_url`: run the attempt loop from attempt
0 with `max_retries + 1` iterations; `fuel` bounds the chained alternate-URL
restarts (at most `strip query → append index.html` can ever chain, so any
fuel of 3 or more is exact). -/
def download_single_url (P : LibParams) (cfg : SiteClonerConfig) (env : FetchEnv)
    (base_url : PyStr) (outputDir : List PyStr) : Nat → PyStr → DlOut
  | 0, url =>
    download_attempt_loop cfg env
      (fun u => url_to_local_path P base_url u outputDir) none url 0
      (cfg.max_retries + 1)
  | fuel + 1, url =>
    download_attempt_loop cfg env
      (fun u => url_to_local_path P base_url u outputDir)
      (some (download_single_url P cfg env base_url outputDir fuel)) url 0
      (cfg.max_retries + 1)

/-- `_download_single_url(session, url, output_dir)` with ample restart fuel. -/
def download_single (P : LibParams) (cfg : SiteClonerConfig) (env : FetchEnv)
    (base_url : PyStr) (outputDir : List PyStr) (fuel : Nat) (url : PyStr) : DlOut :=
  download_single_url P cfg env base_url outputDir fuel url

/-- `DownloadStats` (start time omitted: wall clock). -/
structure DownloadStats where
  total_files : Nat := 0
  downloaded_files : Nat := 0
  failed_files : Nat := 0
  total_bytes : Nat := 0
  errors : List PyStr := []
deriving Repr, DecidableEq

/-- The mutable state of a `DownloadManager`. -/
structure DMState where
  downloaded_urls : List PyStr := []
  failed_urls : List PyStr := []
  stats : DownloadStats := {}
deriving Repr, DecidableEq

/-- `DownloadStats.add_success`. -/
def stats_add_success (s : DownloadStats) (file_size : Nat) : DownloadStats :=
  { s with downloaded_files := s.downloaded_files + 1,
           total_bytes := s.total_bytes + file_size }

/-- `DownloadStats.add_failure`. -/
def stats_add_failure (s : DownloadStats) (error : PyStr) : DownloadStats :=
  { s with failed_files := s.failed_files + 1, errors := s.errors ++ [error] }

/-- `DownloadManager.download_urls`: filter already-terminal URLs, run the
batch disk pre-check, then fetch each net-new URL (`asyncio.gather` with
`return_exceptions=True` folds exceptions into failure results, which the
fetch model already does) and record outcomes.  Alternate-URL fuel is 3:
at most `strip query → append index.html` can chain. -/
def download_urls (P : LibParams) (cfg : SiteClonerConfig) (env : FetchEnv)
    (base_url : PyStr) (st : DMState) (urls : List PyStr)
    (outputDir : List PyStr) : List (PyStr × DownloadResult) × DMState :=
  let st1 := { st with stats := { st.stats with total_files := urls.length } }
  let new_urls := urls.filter
    (fun u => !st.downloaded_urls.contains u && !st.failed_urls.contains u)
  if new_urls = [] then ([], st1)
  else
    let estimated := new_urls.length * 1024 * 1024
    if !check_disk_space env estimated then ([], st1)
    else
      new_urls.foldl
        (fun (acc : List (PyStr × DownloadResult) × DMState) url =>
          let out := download_single P cfg env base_url outputDir 3 url
          let s := acc.2
          let s2 :=
            if out.res.success then
              { s with downloaded_urls := s.downloaded_urls ++ [url],
                       stats := stats_add_success s.stats out.res.file_size }
            else
              { s with failed_urls := s.failed_urls ++ [url],
                       stats := stats_add_failure s.stats
                         (url ++ pys ": " ++ out.res.error.getD []) }
          (acc.1 ++ [(url, out.res)], s2))
        ([], st1)

/-! The repository's `sitecloner.py`: essential-failure classification, the
recursive CSS closure loop with its cycle and depth book-keeping, and the
`clone_site` phase driver's return value. -/

/-- `SiteCloner._is_essential_for_rendering`. -/
def is_essential_for_rendering (url : PyStr) (error : PyStr) : Bool :=
  let urlLower := pyLower url
  let nonEssentialDomains :=
    [pys "twitter.com", pys "facebook.com", pys "linkedin.com",
     pys "instagram.com", pys "youtube.com", pys "google-analytics.com",
     pys "googletagmanager.com", pys "doubleclick.net",
     pys "googlesyndication.com", pys "hs-scripts.com", pys "hubspot.com",
     pys "mixpanel.com", pys "segment.com"]
  let nonEssentialPatterns :=
    [pys "xmlrpc.php", pys "wp-json", pys "wp-admin", pys "wp-login",
     pys "analytics", pys "tracking", pys "gtag", pys "facebook.com",
     pys "twitter.com", pys "linkedin.com"]
  let nonEssentialErrors :=
    [pys "File filtered by configuration", pys "HTTP 403", pys "HTTP 401"]
  if nonEssentialDomains.any (fun d => containsSeq d urlLower) then false
  else if nonEssentialPatterns.any (fun p => containsSeq p urlLower) then false
  else if nonEssentialErrors.any (fun e => containsSeq e error) then false
  else true

/-- Association-list overwrite (Python dictionary assignment). -/
def mapSet (k v : PyStr) : List (PyStr × PyStr) → List (PyStr × PyStr)
  | [] => [(k, v)]
  | (k0, v0) :: rest =>
    if k0 = k then (k0, v) :: rest else (k0, v0) :: mapSet k v rest

/-- Association-list overwrite for download results. -/
def resSet (k : PyStr) (v : DownloadResult) :
    List (PyStr × DownloadResult) → List (PyStr × DownloadResult)
  | [] => [(k, v)]
  | (k0, v0) :: rest =>
    if k0 = k then (k0, v) :: rest else (k0, v0) :: resSet k v rest

/-- Result lookup. -/
def resGet (rs : List (PyStr × DownloadResult)) (k : PyStr) : Option DownloadResult :=
  (rs.find? (fun kv => kv.1 = k)).map (·.2)

/-- Graph entry overwrite. -/
def graphSet (k : PyStr) (v : List PyStr) :
    List (PyStr × List PyStr) → List (PyStr × List PyStr)
  | [] => [(k, v)]
  | (k0, v0) :: rest =>
    if k0 = k then (k0, v) :: rest else (k0, v0) :: graphSet k v rest

/-- Graph neighbours (`import_graph.get(start_url, set())`). -/
def graphGet (g : List (PyStr × List PyStr)) (k : PyStr) : List PyStr :=
  ((g.find? (fun kv => kv.1 = k)).map (·.2)).getD []

/-- Depth-tracker entry overwrite. -/
def depthSet (k : PyStr) (v : Nat) :
    List (PyStr × Nat) → List (PyStr × Nat)
  | [] => [(k, v)]
  | (k0, v0) :: rest =>
    if k0 = k then (k0, v) :: rest else (k0, v0) :: depthSet k v rest

/-- `css_depth_tracker.get(url, 0)`. -/
def depthGet (d : List (PyStr × Nat)) (k : PyStr) : Nat :=
  ((d.find? (fun kv => kv.1 = k)).map (·.2)).getD 0

/-- Set-union preserving first-insertion order (Python `set.update`, which the
loop only ever consumes through membership, difference and length). -/
def listUnion (a b : List PyStr) : List PyStr :=
  a ++ b.foldl (fun acc u => if a.contains u || acc.contains u then acc else acc ++ [u]) []

/-- `SiteCloner._has_css_import_cycle`: depth-first search threading the
shared `visited` set and a scoped `path` set.  Nodes are expanded at most
once, so `1 + |keys| + Σ out-degrees` fuel can never be exhausted; the fuel-0
arm is unreachable padding for totality. -/
def has_cycle_dfs (graph : List (PyStr × List PyStr)) :
    Nat → PyStr → List PyStr → List PyStr → Bool × List PyStr
  | 0, _, visited, _ => (false, visited)
  | fuel + 1, u, visited, path =>
    if path.contains u then (true, visited)
    else if visited.contains u then (false, visited)
    else
      (graphGet graph u).foldl
        (fun (acc : Bool × List PyStr) v =>
          if acc.1 then acc
          else has_cycle_dfs graph fuel v acc.2 (path ++ [u]))
        (false, visited ++ [u])

/-- `SiteCloner._has_css_import_cycle(start_url, graph)`. -/
def has_css_import_cycle (graph : List (PyStr × List PyStr)) (start : PyStr) : Bool :=
  (has_cycle_dfs graph (1 + graph.length + (graph.map (fun kv => kv.2.length)).sum)
    start [] []).1

/-- State carried by `_process_css_files_recursively`. -/
structure CssState where
  download_results : List (PyStr × DownloadResult) := []
  discovered_urls : List PyStr := []
  processed_css : List PyStr := []
  import_graph : List (PyStr × List PyStr) := []
  depth_tracker : List (PyStr × Nat) := []
deriving Repr

/-- Effects the closure loop consumes: file sizes and decoded contents at
local paths, the extractor's verdict (`discover_assets_in_css`), and whether
the orchestrator succeeds in downloading each newly found URL (its path
assignment included).  The extractor and orchestrator are separate
components; the loop treats them through exactly this interface. -/
structure CssEnv where
  fileSizeOf : List PyStr → Nat
  readFile : List PyStr → Option PyStr
  discover : PyStr → PyStr → List (PyStr × List PyStr)
  downloadOk : PyStr → Bool
  localPathOf : PyStr → List PyStr

/-- The candidate-collection loop at the top of each iteration, including the
`max_total_css_files` break (`processed_css_files` does not change while
collecting, so the break empties the remainder). -/
def collect_css (maxTotal : Nat) (st : CssState) : List (PyStr × List PyStr) :=
  (st.download_results.foldl
    (fun (acc : List (PyStr × List PyStr) × Bool) ur =>
      if acc.2 then acc
      else
        if ur.2.success && ur.2.local_path.isSome &&
           should_process_for_assets ur.1 &&
           (endsWithSeq (pys ".css") ur.1 || containsSeq (pys ".css") ur.1) &&
           !st.processed_css.contains ur.1 then
          if maxTotal ≤ st.processed_css.length then (acc.1, true)
          else (acc.1 ++ [(ur.1, ur.2.local_path.getD [])], false)
        else acc)
    ([], false)).1

/-- Process one collected stylesheet: record it processed, honour the size
cap, read it, extract, maintain the import graph / cycle check / depth
tracker, and union the discovered reference sets into `new_assets`. -/
def process_one_css (env : CssEnv) (maxDepth : Nat)
    (acc : CssState × List PyStr) (entry : PyStr × List PyStr) :
    CssState × List PyStr :=
  let st := acc.1
  let newAssets := acc.2
  let css_url := entry.1
  let css_path := entry.2
  let st := { st with processed_css := st.processed_css ++ [css_url] }
  if 10 * 1024 * 1024 < env.fileSizeOf css_path then (st, newAssets)
  else
    match env.readFile css_path with
    | none => (st, newAssets)
    | some content =>
      let css_assets := env.discover content css_url
      let allUrls := css_assets.foldl (fun a kv => listUnion a kv.2) []
      match css_assets.find? (fun kv => kv.1 = pys "css") with
      | some kv =>
        let imported := kv.2
        let st := { st with import_graph := graphSet css_url imported st.import_graph }
        if has_css_import_cycle st.import_graph css_url then (st, newAssets)
        else
          let current := depthGet st.depth_tracker css_url
          let dt := imported.foldl
            (fun dt imp =>
              if maxDepth < current + 1 then dt else depthSet imp (current + 1) dt)
            st.depth_tracker
          let st := { st with depth_tracker := dt }
          (st, listUnion newAssets allUrls)
      | none => (st, listUnion newAssets allUrls)

/-- One iteration body plus the `while` recursion of
`_process_css_files_recursively`; returns the final state and the number of
iterations entered. -/
def css_loop (env : CssEnv) (maxDepth maxTotal : Nat) :
    Nat → CssState → CssState × Nat
  | 0, st => (st, 0)
  | fuel + 1, st =>
    let batch := collect_css maxTotal st
    if batch = [] then (st, 1)
    else
      let stNew := batch.foldl (process_one_css env maxDepth) (st, [])
      let st1 := stNew.1
      let new_assets := stNew.2
      let truly_new := new_assets.filter
        (fun u =>
          !(match resGet st1.download_results u with
            | some r => r.success
            | none => false) &&
          !(endsWithSeq (pys ".css") u && maxDepth < depthGet st1.depth_tracker u))
      if truly_new = [] then (st1, 1)
      else
        let st2 := { st1 with
          discovered_urls := listUnion st1.discovered_urls truly_new }
        let st3 := truly_new.foldl
          (fun s u =>
            let r : DownloadResult :=
              if env.downloadOk u then
                ⟨true, some (env.localPathOf u), none, 1, none⟩
              else ⟨false, none, some (pys "download failed"), 0, none⟩
            { s with download_results := resSet u r s.download_results })
          st2
        let rec_ := css_loop env maxDepth maxTotal fuel st3
        (rec_.1, rec_.2 + 1)

/-- `SiteCloner._process_css_files_recursively`: `max_iterations = 10`,
`max_total_css_files = 500`, `max_css_depth = 8`. -/
def process_css_files_recursively (env : CssEnv) (st : CssState) : CssState × Nat :=
  css_loop env 8 500 10 st

/-- `URLRewriter.add_url_mapping`. -/
def add_url_mapping (outputDir : List PyStr) (m : List (PyStr × PyStr))
    (original : PyStr) (localPath : List PyStr) : List (PyStr × PyStr) :=
  if listLeads outputDir localPath then
    mapSet original (joinWith '/' (localPath.drop outputDir.length)) m
  else mapSet original (localPath.getLastD []) m

/-- The tracking state of a `SiteCloner` run. -/
structure CloneState where
  discovered_urls : List PyStr := []
  download_results : List (PyStr × DownloadResult) := []
  url_mapping : List (PyStr × PyStr) := []
deriving Repr

/-- The collaborator outcomes `clone_site` consumes: the main-page fetch, its
decoded content, the extractor's reference set for it, and the per-URL
outcome the download phases (batched downloads, the CSS closure iteration
modelled above, and the bulk retry pass) settle on for each discovered URL. -/
structure CloneEnv where
  mainResult : DownloadResult
  mainContent : Option PyStr
  mainAssets : List PyStr
  assetResults : PyStr → DownloadResult

/-- `SiteCloner.clone_site` on a run in which no phase raises an uncaught
exception (failed downloads are results, not exceptions: the orchestrator
gathers with `return_exceptions=True`).  Returns the boolean the coroutine
returns together with the final tracking state; the source reaches its
unconditional `return True` whenever the main page result is a success,
whatever the asset results contain. -/
def clone_site (env : CloneEnv) (target : PyStr) (outputDir : List PyStr) :
    Bool × CloneState :=
  if !env.mainResult.success then (false, {})
  else
    let mapping0 :=
      match env.mainResult.local_path with
      | some lp => add_url_mapping outputDir [] target lp
      | none => []
    let discovered :=
      match env.mainContent with
      | some _ => env.mainAssets
      | none => []
    let results := discovered.map (fun u => (u, env.assetResults u))
    let mapping := results.foldl
      (fun m ur =>
        match ur.2.local_path with
        | some lp => if ur.2.success then add_url_mapping outputDir m ur.1 lp else m
        | none => m)
      mapping0
    (true, ⟨discovered, results, mapping⟩)

/-- The essential-failure count `_print_summary` computes. -/
def essential_failures (results : List (PyStr × DownloadResult)) : Nat :=
  (results.filter
    (fun ur => !ur.2.success &&
      is_essential_for_rendering ur.1 (ur.2.error.getD []))).length

/-- Whether `_print_summary` prints the green `SUCCESS:` verdict
(`essential_failures == 0`). -/
def summary_success_verdict (results : List (PyStr × DownloadResult)) : Bool :=
  essential_failures results = 0

/-! Claim theorems. -/

/-- A fetch environment with nothing on disk, no responses worth anything,
and a given amount of free disk space; used by concrete instantiations. -/
def plainFetchEnv (free : Option Nat) : FetchEnv where
  resp := fun _ _ => ⟨false, none, 200, [], none, [], 0⟩
  fsize := fun _ => none
  availMem := 1024 * 1024 * 1024
  freeDisk := free

/-- C10: when the batch disk-space pre-check fails — 1 MB estimated per
net-new URL, 20 % buffer, against free space — `download_urls` returns an
empty result map and records nothing for the batch: the terminal URL sets,
the error list, and the per-URL success/failure counters are all unchanged,
so the batch's URLs read as never attempted. -/
theorem C10_disk_precheck_returns_empty (P : LibParams) (cfg : SiteClonerConfig)
    (env : FetchEnv) (base : PyStr) (st : DMState) (urls outDir : List PyStr)
    (f : Nat)
    (hnew : urls.filter
      (fun u => !st.downloaded_urls.contains u && !st.failed_urls.contains u) ≠ [])
    (hfree : env.freeDisk = some f)
    (hlow : 5 * f ≤ 6 * ((urls.filter
      (fun u => !st.downloaded_urls.contains u &&
        !st.failed_urls.contains u)).length * 1024 * 1024)) :
    (download_urls P cfg env base st urls outDir).1 = [] ∧
    (download_urls P cfg env base st urls outDir).2.downloaded_urls =
      st.downloaded_urls ∧
    (download_urls P cfg env base st urls outDir).2.failed_urls = st.failed_urls ∧
    (download_urls P cfg env base st urls outDir).2.stats.errors =
      st.stats.errors ∧
    (download_urls P cfg env base st urls outDir).2.stats.downloaded_files =
      st.stats.downloaded_files ∧
    (download_urls P cfg env base st urls outDir).2.stats.failed_files =
      st.stats.failed_files := by
  have hdisk : check_disk_space env
      ((urls.filter (fun u => !st.downloaded_urls.contains u &&
        !st.failed_urls.contains u)).length * 1024 * 1024) = false := by
    unfold check_disk_space
    rw [hfree]
    simp only [decide_eq_false_iff_not, not_lt]
    omega
  unfold download_urls
  rw [if_neg hnew]
  simp only [hdisk, Bool.not_false]
  simp

/-- C10 witness: a concrete one-URL batch against an exhausted disk. -/
theorem C10_disk_precheck_witness :
    ([pys "http://e.com/a"].filter
      (fun u => !(DMState.mk [] [] {}).downloaded_urls.contains u &&
        !(DMState.mk [] [] {}).failed_urls.contains u) ≠ []) ∧
    (plainFetchEnv (some 7)).freeDisk = some 7 ∧
    (download_urls asciiParams {} (plainFetchEnv (some 7)) (pys "http://e.com/")
      (DMState.mk [] [] {}) [pys "http://e.com/a"] [pys "out"]).1 = [] := by
  refine ⟨by decide, rfl, ?_⟩
  exact (C10_disk_precheck_returns_empty asciiParams {} (plainFetchEnv (some 7))
    (pys "http://e.com/") (DMState.mk [] [] {}) [pys "http://e.com/a"]
    [pys "out"] 7 (by decide) rfl (by decide)).1

/-- A run whose main page succeeds while one script fails all retries with
HTTP 500 and matches no non-essential domain, pattern or error rule. -/
def c2Env : CloneEnv where
  mainResult := ⟨true, some [pys "out", pys "index.html"], none, 100,
    some (pys "text/html")⟩
  mainContent := some (pys "<html></html>")
  mainAssets := [pys "http://site.example/app.js"]
  assetResults := fun _ =>
    ⟨false, none, some (pys "HTTP 500: Internal Server Error"), 0, none⟩

/-- C2 counterexample: in the run above the failed script is classified
essential, yet `clone_site` still returns `True` — the claim's `false` is
wrong; the source reaches its unconditional `return True` at the end of the
phase sequence. -/
theorem C2_counterexample_returns_true_despite_essential_failure :
    (clone_site c2Env (pys "http://site.example/") [pys "out"]).1 = true ∧
    essential_failures
      (clone_site c2Env (pys "http://site.example/") [pys "out"]).2.download_results = 1 ∧
    is_essential_for_rendering (pys "http://site.example/app.js")
      (pys "HTTP 500: Internal Server Error") = true := by
  refine ⟨?_, ?_, ?_⟩ <;> decide

/-- C2 amended: `clone_site`'s boolean is `true` whenever the main page
downloads and no exception escapes, regardless of essential failures; the
zero-essential-failures criterion governs only the printed summary verdict. -/
theorem C2_clone_site_success_is_main_page_success (env : CloneEnv)
    (target : PyStr) (outDir : List PyStr)
    (hmain : env.mainResult.success = true) :
    (clone_site env target outDir).1 = true ∧
    (summary_success_verdict (clone_site env target outDir).2.download_results = true ↔
      ∀ p ∈ (clone_site env target outDir).2.download_results,
        p.2.success = false →
        is_essential_for_rendering p.1 (p.2.error.getD []) = false) := by
  constructor
  · unfold clone_site
    rw [hmain]
    simp
  · unfold summary_success_verdict essential_failures
    rw [decide_eq_true_iff, List.length_eq_zero, List.filter_eq_nil_iff]
    constructor
    · intro h p hp hfail
      have := h p hp
      simp only [hfail, Bool.not_false, Bool.true_and, Bool.not_eq_true] at this
      exact this
    · intro h p hp
      by_cases hs : p.2.success = true
      · simp [hs]
      · have hf : p.2.success = false := by
          cases hsv : p.2.success
          · rfl
          · exact absurd hsv hs
        simp [hf, h p hp hf]

/-- C2 amended-theorem witness at a concrete successful environment. -/
theorem C2_clone_site_success_witness :
    c2Env.mainResult.success = true ∧
    (clone_site c2Env (pys "http://site.example/") [pys "out"]).1 = true :=
  ⟨rfl, (C2_clone_site_success_is_main_page_success c2Env
    (pys "http://site.example/") [pys "out"] rfl).1⟩

/-- Responses that declare `content-length: 0` but deliver a 2000-byte body. -/
def c5Env : FetchEnv where
  resp := fun _ _ => ⟨false, none, 200, pys "OK", some 0, pys "text/css", 2000⟩
  fsize := fun _ => none
  availMem := 1024 * 1024 * 1024
  freeDisk := none

/-- C5 counterexample: with a declared length of `L = 0` (Python-falsy, so
the size-mismatch guard `if file_size and ...` is skipped) the fetch reports
success although the bytes written differ from the declared length by 2000,
far beyond the 1 KB tolerance. -/
theorem C5_counterexample_zero_declared_length :
    (download_single asciiParams {} c5Env (pys "http://e.com/") [pys "out"] 3
      (pys "http://e.com/style.css")).res.success = true ∧
    (download_single asciiParams {} c5Env (pys "http://e.com/") [pys "out"] 3
      (pys "http://e.com/style.css")).declared = some 0 ∧
    1024 < natDist (download_single asciiParams {} c5Env (pys "http://e.com/")
      [pys "out"] 3 (pys "http://e.com/style.css")).res.file_size 0 := by
  refine ⟨?_, ?_, ?_⟩ <;> decide


/-- Soundness of a download outcome (amended C5): success only comes with a
non-zero byte count, and within 1 KB of any declared *non-zero* length. -/
def dlSane (o : DlOut) : Prop :=
  o.res.success = true →
    o.res.file_size ≠ 0 ∧
      ∀ L, o.declared = some L → L ≠ 0 → natDist o.res.file_size L ≤ 1024

/-- A failed outcome is vacuously sane. -/
theorem dlSane_of_fail (o : DlOut) (ho : o.res.success = false) : dlSane o :=
  fun h => absurd h (by simp [ho])

/-- One attempt of the retry loop preserves outcome soundness. -/
theorem dl_step_C5 (cfg : SiteClonerConfig) (env : FetchEnv)
    (toLocal : PyStr → Option (List PyStr)) (alt : Option (PyStr → DlOut))
    (url : PyStr) (attempt : Nat) (retry : DlOut)
    (halt : ∀ f u, alt = some f → dlSane (f u))
    (hr : dlSane retry) :
    dlSane (download_attempt_step cfg env toLocal alt url attempt retry) := by
  unfold download_attempt_step
  split
  · -- url_to_local_path raised
    split
    · exact hr
    · exact dlSane_of_fail _ rfl
  · rename_i lp _
    split
    · -- cache hit: the guard requires a positive on-disk size
      rename_i hcache
      intro _
      simp only [Bool.and_eq_true, decide_eq_true_eq] at hcache
      refine ⟨?_, fun L hL => Option.noConfusion hL⟩
      show (env.fsize lp).getD 0 ≠ 0
      omega
    · split
      · -- timeout
        split
        · exact hr
        · exact dlSane_of_fail _ rfl
      · split
        · -- client exception
          split
          · exact hr
          · exact dlSane_of_fail _ rfl
        · split
          · -- filtered by configuration
            exact dlSane_of_fail _ rfl
          · split
            · -- HTTP status ≥ 400
              split
              · -- 404 alternate: query string stripped
                exact halt _ _ rfl
              · -- 404 alternate: index.html appended
                exact halt _ _ rfl
              all_goals
                split
                · exact hr
                · exact dlSane_of_fail _ rfl
            · split
              · -- memory guard
                exact dlSane_of_fail _ rfl
              · split
                · -- disk guard
                  exact dlSane_of_fail _ rfl
                · split
                  · -- empty body
                    split
                    · exact hr
                    · exact dlSane_of_fail _ rfl
                  · rename_i hempty
                    split
                    · -- size mismatch beyond tolerance
                      split
                      · exact hr
                      · exact dlSane_of_fail _ rfl
                    · -- success
                      rename_i hmis
                      intro _
                      constructor
                      · exact hempty
                      · intro L hL hL0
                        replace hL : (env.resp url attempt).contentLength = some L := hL
                        rw [hL] at hmis
                        simp only [lenTruthy, Bool.and_eq_true, decide_eq_true_eq,
                          Option.getD_some, not_and, not_lt] at hmis
                        show natDist (env.resp url attempt).bodyBytes L ≤ 1024
                        exact hmis hL0

/-- The whole retry loop preserves outcome soundness. -/
theorem dl_loop_C5 (cfg : SiteClonerConfig) (env : FetchEnv)
    (toLocal : PyStr → Option (List PyStr)) (alt : Option (PyStr → DlOut))
    (halt : ∀ f u, alt = some f → dlSane (f u)) :
    ∀ (remaining : Nat) (url : PyStr) (attempt : Nat),
      dlSane (download_attempt_loop cfg env toLocal alt url attempt remaining) := by
  intro remaining
  induction remaining with
  | zero => exact fun url attempt h => Bool.noConfusion h
  | succ n ih =>
    intro url attempt
    exact dl_step_C5 cfg env toLocal alt url attempt _ halt (ih url (attempt + 1))

/-- `_download_single_url` never reports an unsound success, at any restart
fuel. -/
theorem dl_single_C5 (P : LibParams) (cfg : SiteClonerConfig) (env : FetchEnv)
    (base_url : PyStr) (outputDir : List PyStr) :
    ∀ (fuel : Nat) (url : PyStr),
      dlSane (download_single P cfg env base_url outputDir fuel url) := by
  intro fuel
  induction fuel with
  | zero =>
    intro url
    exact dl_loop_C5 cfg env _ none (fun f u h => Option.noConfusion h)
      (cfg.max_retries + 1) url 0
  | succ n ih =>
    intro url
    refine dl_loop_C5 cfg env _ (some (download_single_url P cfg env base_url outputDir n))
      (fun f u h => ?_) (cfg.max_retries + 1) url 0
    have hf : download_single_url P cfg env base_url outputDir n = f :=
      Option.some.inj h
    exact hf ▸ ih u


/-- C5 (amended): whenever `_download_single_url` reports success the byte
count written is non-zero, and if the response declared a **non-zero**
content length `L` then the bytes written differ from `L` by at most 1024.
(The declared-length comparison is guarded by Python truthiness, so a
declared length of 0 is never checked — see the counterexample.) -/
theorem C5_success_nonzero_within_tolerance (P : LibParams)
    (cfg : SiteClonerConfig) (env : FetchEnv) (base_url : PyStr)
    (outputDir : List PyStr) (fuel : Nat) (url : PyStr)
    (h : (download_single P cfg env base_url outputDir fuel url).res.success = true) :
    (download_single P cfg env base_url outputDir fuel url).res.file_size ≠ 0 ∧
    ∀ L, (download_single P cfg env base_url outputDir fuel url).declared = some L →
      L ≠ 0 →
      natDist (download_single P cfg env base_url outputDir fuel url).res.file_size
        L ≤ 1024 :=
  dl_single_C5 P cfg env base_url outputDir fuel url h

/-- Responses that declare 2000 bytes and deliver 2000 bytes. -/
def c5wEnv : FetchEnv where
  resp := fun _ _ => ⟨false, none, 200, pys "OK", some 2000, pys "text/css", 2000⟩
  fsize := fun _ => none
  availMem := 0
  freeDisk := none

/-- C5 amended-theorem witness at a concrete successful download. -/
theorem C5_success_nonzero_within_tolerance_witness :
    (download_single asciiParams {} c5wEnv (pys "http://e.com/") [pys "out"] 3
      (pys "http://e.com/style.css")).res.success = true ∧
    (download_single asciiParams {} c5wEnv (pys "http://e.com/") [pys "out"] 3
      (pys "http://e.com/style.css")).declared = some 2000 ∧
    (download_single asciiParams {} c5wEnv (pys "http://e.com/") [pys "out"] 3
      (pys "http://e.com/style.css")).res.file_size ≠ 0 ∧
    natDist (download_single asciiParams {} c5wEnv (pys "http://e.com/") [pys "out"] 3
      (pys "http://e.com/style.css")).res.file_size 2000 ≤ 1024 :=
  ⟨by decide, by decide,
   (C5_success_nonzero_within_tolerance asciiParams {} c5wEnv (pys "http://e.com/")
     [pys "out"] 3 (pys "http://e.com/style.css") (by decide)).1,
   (C5_success_nonzero_within_tolerance asciiParams {} c5wEnv (pys "http://e.com/")
     [pys "out"] 3 (pys "http://e.com/style.css") (by decide)).2 2000 (by decide)
     (by decide)⟩


/-- Unfolding equation of the retry loop. -/
theorem dl_loop_succ (cfg : SiteClonerConfig) (env : FetchEnv)
    (toLocal : PyStr → Option (List PyStr)) (alt : Option (PyStr → DlOut))
    (url : PyStr) (attempt remaining : Nat) :
    download_attempt_loop cfg env toLocal alt url attempt (remaining + 1) =
      download_attempt_step cfg env toLocal alt url attempt
        (download_attempt_loop cfg env toLocal alt url (attempt + 1) remaining) := rfl

/-- On responses that are plain 4xx every iteration (no timeout, no client
exception, not filtered, status ≥ 400 but never 404), the loop consumes every
remaining iteration and fails with the HTTP error of the last attempt. -/
theorem dl_loop_C6 (cfg : SiteClonerConfig) (env : FetchEnv)
    (toLocal : PyStr → Option (List PyStr)) (alt : Option (PyStr → DlOut))
    (url : PyStr) (lp : List PyStr)
    (h1 : toLocal url = some lp) (h2 : env.fsize lp = none)
    (h3 : ∀ a, (env.resp url a).timeout = false)
    (h4 : ∀ a, (env.resp url a).excMsg = none)
    (h5 : ∀ a, should_download_file cfg url (env.resp url a).contentLength = true)
    (h6 : ∀ a, 400 ≤ (env.resp url a).status)
    (h7 : ∀ a, (env.resp url a).status ≠ 404) :
    ∀ (remaining attempt : Nat), attempt + remaining = cfg.max_retries →
      download_attempt_loop cfg env toLocal alt url attempt (remaining + 1) =
        ⟨⟨false, none, some (http_error_msg (env.resp url cfg.max_retries).status
          (env.resp url cfg.max_retries).reason), 0, none⟩, remaining + 1, none⟩ := by
  intro remaining
  induction remaining with
  | zero =>
    intro attempt hsum
    have ha : attempt = cfg.max_retries := by omega
    subst ha
    rw [dl_loop_succ]
    have hnl : ¬ cfg.max_retries < cfg.max_retries := Nat.lt_irrefl _
    cases alt with
    | none =>
      simp [download_attempt_step, h1, h2, h3, h4, h5, h6, h7, hnl]
    | some f =>
      simp [download_attempt_step, h1, h2, h3, h4, h5, h6, h7, hnl]
  | succ n ih =>
    intro attempt hsum
    rw [dl_loop_succ]
    have hlt : attempt < cfg.max_retries := by omega
    rw [ih (attempt + 1) (by omega)]
    cases alt with
    | none =>
      simp [download_attempt_step, h1, h2, h3, h4, h5, h6, h7, hlt, bumpAttempt]
    | some f =>
      simp [download_attempt_step, h1, h2, h3, h4, h5, h6, h7, hlt, bumpAttempt]


/-- A retry config of 2 and responses that are always `403 Forbidden`. -/
def c6cfg : SiteClonerConfig := { max_retries := 2 }

/-- Responses that are always `403 Forbidden`. -/
def c6Env : FetchEnv where
  resp := fun _ _ => ⟨false, none, 403, pys "Forbidden", some 100, pys "text/html", 100⟩
  fsize := fun _ => none
  availMem := 0
  freeDisk := none

/-- C6 counterexample: an HTTP 403 is **not** a permanent error recorded after
a single request — with `max_retries = 2` the downloader issues 3 requests for
the same URL before failing. -/
theorem C6_counterexample_403_retried :
    (download_single asciiParams c6cfg c6Env (pys "http://e.com/") [pys "out"] 3
      (pys "http://e.com/a.png")).res.error =
        some (http_error_msg 403 (pys "Forbidden")) ∧
    (download_single asciiParams c6cfg c6Env (pys "http://e.com/") [pys "out"] 3
      (pys "http://e.com/a.png")).attemptsMade = 3 := by
  refine ⟨?_, ?_⟩ <;> decide

/-- C6 (amended): a plain 4xx response (status ≥ 400 and not 404, no timeout,
no client exception, file not filtered, nothing cached on disk) is treated as
retryable: the downloader issues `max_retries + 1` requests and then fails
with the HTTP error of the last attempt. -/
theorem C6_plain_4xx_retried_until_exhausted (P : LibParams)
    (cfg : SiteClonerConfig) (env : FetchEnv) (base_url : PyStr)
    (outputDir : List PyStr) (fuel : Nat) (url : PyStr) (lp : List PyStr)
    (h1 : url_to_local_path P base_url url outputDir = some lp)
    (h2 : env.fsize lp = none)
    (h3 : ∀ a, (env.resp url a).timeout = false)
    (h4 : ∀ a, (env.resp url a).excMsg = none)
    (h5 : ∀ a, should_download_file cfg url (env.resp url a).contentLength = true)
    (h6 : ∀ a, 400 ≤ (env.resp url a).status)
    (h7 : ∀ a, (env.resp url a).status ≠ 404) :
    download_single P cfg env base_url outputDir fuel url =
      ⟨⟨false, none, some (http_error_msg (env.resp url cfg.max_retries).status
        (env.resp url cfg.max_retries).reason), 0, none⟩,
       cfg.max_retries + 1, none⟩ := by
  cases fuel with
  | zero =>
    exact dl_loop_C6 cfg env (fun u => url_to_local_path P base_url u outputDir)
      none url lp h1 h2 h3 h4 h5 h6 h7
      cfg.max_retries 0 (by omega)
  | succ n =>
    exact dl_loop_C6 cfg env (fun u => url_to_local_path P base_url u outputDir)
      (some (download_single_url P cfg env base_url outputDir n)) url lp
      h1 h2 h3 h4 h5 h6 h7 cfg.max_retries 0 (by omega)

/-- C6 amended-theorem witness at the concrete 403 environment. -/
theorem C6_plain_4xx_retried_witness :
    download_single asciiParams c6cfg c6Env (pys "http://e.com/") [pys "out"] 3
      (pys "http://e.com/a.png") =
      ⟨⟨false, none, some (http_error_msg 403 (pys "Forbidden")), 0, none⟩,
       3, none⟩ :=
  C6_plain_4xx_retried_until_exhausted asciiParams c6cfg c6Env
    (pys "http://e.com/") [pys "out"] 3 (pys "http://e.com/a.png")
    [pys "out", pys "e.com", pys "a.png"] (by decide) rfl (fun _ => rfl)
    (fun _ => rfl) (fun _ => rfl) (fun _ => of_decide_eq_true rfl)
    (fun _ => of_decide_eq_true rfl)


/-- Every recorded import depth is at most `m`. -/
def dtBounded (m : Nat) (d : List (PyStr × Nat)) : Prop :=
  ∀ kv, kv ∈ d → kv.2 ≤ m

/-- Members of an overwritten tracker are the new pair or old members. -/
theorem mem_depthSet (k : PyStr) (v : Nat) (d : List (PyStr × Nat)) :
    ∀ kv, kv ∈ depthSet k v d → kv = (k, v) ∨ kv ∈ d := by
  induction d with
  | nil =>
    intro kv h
    simp only [depthSet, List.mem_singleton] at h
    exact Or.inl h
  | cons hd0 tl ih =>
    obtain ⟨k0, v0⟩ := hd0
    intro kv h
    simp only [depthSet] at h
    split at h
    · rcases List.mem_cons.mp h with h1 | h1
      · rename_i he
        exact Or.inl (by rw [h1, he])
      · exact Or.inr (List.mem_cons_of_mem _ h1)
    · rcases List.mem_cons.mp h with h1 | h1
      · exact Or.inr (h1 ▸ List.mem_cons_self _ _)
      · rcases ih kv h1 with h2 | h2
        · exact Or.inl h2
        · exact Or.inr (List.mem_cons_of_mem _ h2)

/-- Overwriting with an in-bound depth keeps the tracker bounded. -/
theorem depthSet_bounded (m : Nat) (k : PyStr) (v : Nat) (d : List (PyStr × Nat))
    (hd : dtBounded m d) (hv : v ≤ m) : dtBounded m (depthSet k v d) := by
  intro kv hkv
  rcases mem_depthSet k v d kv hkv with h | h
  · rw [h]; exact hv
  · exact hd kv h

/-- A bounded tracker never reports a depth above the bound. -/
theorem depthGet_le (m : Nat) (d : List (PyStr × Nat)) (h : dtBounded m d)
    (k : PyStr) : depthGet d k ≤ m := by
  unfold depthGet
  cases hf : d.find? (fun kv => kv.1 = k) with
  | none => exact Nat.zero_le m
  | some kv => exact h kv (List.mem_of_find?_eq_some hf)

/-- The per-stylesheet depth-assignment loop keeps the tracker bounded: an
assignment is only made when the child depth does not exceed the bound. -/
theorem fold_depthSet_bounded (m current : Nat) (l : List PyStr) :
    ∀ dt, dtBounded m dt →
      dtBounded m (l.foldl
        (fun dt imp => if m < current + 1 then dt else depthSet imp (current + 1) dt)
        dt) := by
  induction l with
  | nil => exact fun dt h => h
  | cons a tl ih =>
    intro dt h
    simp only [List.foldl_cons]
    apply ih
    split
    · exact h
    · rename_i hle
      exact depthSet_bounded m a (current + 1) dt h (by omega)

/-- Processing one stylesheet keeps the depth tracker bounded. -/
theorem process_one_css_bounded (env : CssEnv) (m : Nat)
    (acc : CssState × List PyStr) (entry : PyStr × List PyStr)
    (h : dtBounded m acc.1.depth_tracker) :
    dtBounded m (process_one_css env m acc entry).1.depth_tracker := by
  unfold process_one_css
  dsimp only
  split
  · exact h
  · split
    · exact h
    · split
      · split
        · exact h
        · exact fold_depthSet_bounded m _ _ _ h
      · exact h

/-- Processing a whole batch keeps the depth tracker bounded. -/
theorem foldl_process_bounded (env : CssEnv) (m : Nat)
    (batch : List (PyStr × List PyStr)) :
    ∀ acc, dtBounded m acc.1.depth_tracker →
      dtBounded m (batch.foldl (process_one_css env m) acc).1.depth_tracker := by
  induction batch with
  | nil => exact fun acc h => h
  | cons e tl ih =>
    intro acc h
    simp only [List.foldl_cons]
    exact ih _ (process_one_css_bounded env m acc e h)

/-- The depth clause of the end-of-iteration filter can never fire: after any
batch is processed from a tracker bounded by `maxDepth` (the initial tracker
is empty, hence bounded), every recorded depth is still at most `maxDepth`,
so `depth_tracker.get(url, 0) > max_css_depth` is unsatisfiable and no
reference is ever depth-limited. -/
theorem depth_clause_never_fires (env : CssEnv) (m : Nat)
    (st : CssState) (new0 : List PyStr) (batch : List (PyStr × List PyStr))
    (h : dtBounded m st.depth_tracker) (u : PyStr) :
    (endsWithSeq (pys ".css") u &&
      decide (m < depthGet
        (batch.foldl (process_one_css env m) (st, new0)).1.depth_tracker u)) =
      false := by
  have hle := depthGet_le m _
    (foldl_process_bounded env m batch (st, new0) h) u
  simp [decide_eq_false (Nat.not_lt.mpr hle)]


/-- Folding a state transformer that leaves the tracker alone leaves it
alone. -/
theorem foldl_tracker_const (g : CssState → PyStr → CssState)
    (hg : ∀ s u, (g s u).depth_tracker = s.depth_tracker) (l : List PyStr) :
    ∀ s, (l.foldl g s).depth_tracker = s.depth_tracker := by
  induction l with
  | nil => exact fun s => rfl
  | cons a tl ih =>
    intro s
    simp only [List.foldl_cons]
    rw [ih (g s a), hg s a]

/-- The whole closure loop keeps the depth tracker bounded. -/
theorem css_loop_bounded (env : CssEnv) (m maxTotal : Nat) :
    ∀ (fuel : Nat) (st : CssState), dtBounded m st.depth_tracker →
      dtBounded m (css_loop env m maxTotal fuel st).1.depth_tracker := by
  intro fuel
  induction fuel with
  | zero => exact fun st h => h
  | succ n ih =>
    intro st h
    rw [css_loop]
    dsimp only
    split
    · exact h
    · have hb : dtBounded m
          ((collect_css maxTotal st).foldl (process_one_css env m)
            (st, [])).1.depth_tracker :=
        foldl_process_bounded env m (collect_css maxTotal st) (st, []) h
      split
      · exact hb
      · apply ih
        intro kv hkv
        rw [foldl_tracker_const] at hkv
        · exact hb kv hkv
        · intro s u; rfl


/-- The chained-import stylesheet URLs `http://e.com/cK.css`. -/
def c8url (k : Nat) : PyStr := pys "http://e.com/c" ++ natPy k ++ pys ".css"

/-- An environment in which stylesheet `cK` imports `c(K+1)` for `K < 9`:
a 10-deep import chain `c0 → c1 → … → c9`. -/
def c8env : CssEnv where
  fileSizeOf := fun _ => 0
  readFile := fun p => p.head?
  discover := fun content _ =>
    match (List.range 10).find? (fun k => content = c8url k) with
    | some k => if k < 9 then [(pys "css", [c8url (k + 1)])] else []
    | none => []
  downloadOk := fun _ => true
  localPathOf := fun u => [u]

/-- Initially only `c0.css` has been downloaded. -/
def c8st0 : CssState :=
  { download_results := [(c8url 0, ⟨true, some [c8url 0], none, 1, none⟩)] }

/-- C8 divergence: the import edge `c8.css → c9.css` gives `c9.css` a child
depth of 9, exceeding `max_css_depth = 8` (the tracker indeed records depth 8
for `c8.css`), yet `c9.css` is added to the discovered set *and* downloaded:
the over-limit `continue` only skips the tracker assignment, so the tracker
never stores a value above 8 and the `depth_tracker.get(url, 0) > 8` filter
can never exclude anything. -/
theorem C8_deep_import_not_dropped :
    ((resGet (process_css_files_recursively c8env c8st0).1.download_results
        (c8url 9)).map (fun r => r.success) = some true) ∧
    (process_css_files_recursively c8env c8st0).1.discovered_urls.contains
      (c8url 9) = true ∧
    depthGet (process_css_files_recursively c8env c8st0).1.depth_tracker
      (c8url 9) = 0 ∧
    depthGet (process_css_files_recursively c8env c8st0).1.depth_tracker
      (c8url 8) = 8 := by
  refine ⟨?_, ?_, ?_, ?_⟩ <;> decide


/-- The closure loop never enters more iterations than its fuel. -/
theorem css_loop_count_le (env : CssEnv) (m t : Nat) :
    ∀ (fuel : Nat) (st : CssState), (css_loop env m t fuel st).2 ≤ fuel := by
  intro fuel
  induction fuel with
  | zero => exact fun st => Nat.le_refl 0
  | succ n ih =>
    intro st
    rw [css_loop]
    dsimp only
    split
    · show (1 : Nat) ≤ n + 1
      omega
    · split
      · show (1 : Nat) ≤ n + 1
        omega
      · exact Nat.succ_le_succ (ih _)

/-- With no candidate stylesheets, the loop exits after a single iteration
with the state untouched. -/
theorem css_loop_collect_empty (env : CssEnv) (m t fuel : Nat) (st : CssState)
    (h : collect_css t st = []) :
    css_loop env m t (fuel + 1) st = (st, 1) := by
  rw [css_loop]
  dsimp only
  rw [if_pos h]

/-- Once the processed-stylesheet cap is reached, candidate collection is
empty: `processed_css_files` does not change while collecting, so the cap
check fires on every candidate and the `break` keeps the batch empty. -/
theorem collect_css_cap (t : Nat) (st : CssState)
    (h : t ≤ st.processed_css.length) : collect_css t st = [] := by
  unfold collect_css
  have key : ∀ (l : List (PyStr × DownloadResult))
      (acc : List (PyStr × List PyStr) × Bool), acc.1 = [] →
      (l.foldl
        (fun (acc : List (PyStr × List PyStr) × Bool) ur =>
          if acc.2 then acc
          else
            if ur.2.success && ur.2.local_path.isSome &&
               should_process_for_assets ur.1 &&
               (endsWithSeq (pys ".css") ur.1 || containsSeq (pys ".css") ur.1) &&
               !st.processed_css.contains ur.1 then
              if t ≤ st.processed_css.length then (acc.1, true)
              else (acc.1 ++ [(ur.1, ur.2.local_path.getD [])], false)
            else acc) acc).1 = [] := by
    intro l
    induction l with
    | nil => exact fun acc ha => ha
    | cons x tl ih =>
      intro acc ha
      simp only [List.foldl_cons]
      apply ih
      split
      · exact ha
      · split <;> exact ha
  exact key st.download_results ([], false) rfl

/-- The mutually-importing pair `a.css ↔ b.css`. -/
def c7a : PyStr := pys "http://e.com/a.css"

/-- See `c7a`. -/
def c7b : PyStr := pys "http://e.com/b.css"

/-- An environment in which `a.css` imports `b.css` and `b.css` imports
`a.css`. -/
def c7env : CssEnv where
  fileSizeOf := fun _ => 0
  readFile := fun p => p.head?
  discover := fun content _ =>
    if content = c7a then [(pys "css", [c7b])]
    else if content = c7b then [(pys "css", [c7a])] else []
  downloadOk := fun _ => true
  localPathOf := fun u => [u]

/-- Initially only `a.css` has been downloaded. -/
def c7st0 : CssState :=
  { download_results := [(c7a, ⟨true, some [c7a], none, 1, none⟩)] }

/-- A state that has already processed 500 stylesheets. -/
def c7stCap : CssState := { processed_css := List.replicate 500 (pys "x") }

set_option maxRecDepth 40000 in
/-- C7: the stylesheet-mining loop is bounded on every input: it enters at
most `max_iterations = 10` iterations; once `max_total_css_files = 500`
stylesheets are processed it exits immediately (one further iteration, state
unchanged), likewise whenever candidate collection is empty; and on the
synthetic cycle `a.css ↔ b.css` it exits after 2 iterations — the cycle is
detected, no references escape it, and each file is processed exactly once. -/
theorem C7_css_closure_bounded (env : CssEnv) (st : CssState)
    (hcap : 500 ≤ st.processed_css.length) :
    (∀ (env2 : CssEnv) (st2 : CssState),
      (process_css_files_recursively env2 st2).2 ≤ 10) ∧
    process_css_files_recursively env st = (st, 1) ∧
    (∀ (env2 : CssEnv) (st2 : CssState), collect_css 500 st2 = [] →
      process_css_files_recursively env2 st2 = (st2, 1)) ∧
    (process_css_files_recursively c7env c7st0).2 = 2 ∧
    (process_css_files_recursively c7env c7st0).1.processed_css = [c7a, c7b] := by
  refine ⟨fun env2 st2 => css_loop_count_le env2 8 500 10 st2,
    css_loop_collect_empty env 8 500 9 st (collect_css_cap 500 st hcap),
    fun env2 st2 h => css_loop_collect_empty env2 8 500 9 st2 h,
    ?_, ?_⟩ <;> decide

set_option maxRecDepth 40000 in
/-- C7 witness at the concrete capped state and cyclic environment. -/
theorem C7_css_closure_bounded_witness :
    500 ≤ c7stCap.processed_css.length ∧
    process_css_files_recursively c7env c7stCap = (c7stCap, 1) ∧
    (process_css_files_recursively c7env c7st0).2 = 2 :=
  ⟨by decide,
   (C7_css_closure_bounded c7env c7stCap (by decide)).2.1,
   (C7_css_closure_bounded c7env c7stCap (by decide)).2.2.2.1⟩


/-- Appending a normal component commutes with lexical resolution. -/
theorem resolveLex_append_single (l : List PyStr) (c : PyStr)
    (h1 : c ≠ pys "..") (h2 : c ≠ pys ".") :
    resolveLex (l ++ [c]) = resolveLex l ++ [c] := by
  unfold resolveLex
  rw [List.foldl_append]
  simp [h1, h2]

/-- A list leads itself followed by anything. -/
theorem listLeads_append : ∀ (l m : List PyStr), listLeads l (l ++ m) = true := by
  intro l
  induction l with
  | nil => intro m; rfl
  | cons a tl ih => intro m; simp [listLeads, ih]

/-- The hash fallback name starts with `s`, so it is not a dot component. -/
theorem fallback_ne_dotdot (P : LibParams) (url : PyStr) :
    create_safe_fallback_name P url ≠ pys ".." := by
  intro h
  injection h with h1
  exact absurd h1 (by decide)

/-- See `fallback_ne_dotdot`. -/
theorem fallback_ne_dot (P : LibParams) (url : PyStr) :
    create_safe_fallback_name P url ≠ pys "." := by
  intro h
  injection h with h1
  exact absurd h1 (by decide)

/-- C1: every path returned by `url_to_local_path` resolves (lexically; the
source's `Path.resolve()` on not-yet-created paths) to a descendant of the
output root: the checked path is returned only when the `relative_to`
verification succeeds, and the hash fallback lives directly under the root.
The root page URL maps to `<root>/index.html`. -/
theorem C1_local_paths_contained (P : LibParams) (base_url url : PyStr)
    (outputDir : List PyStr) (p : List PyStr)
    (hp : url_to_local_path P base_url url outputDir = some p) :
    listLeads (resolveLex outputDir) (resolveLex p) = true ∧
    (url = base_url → p = outputDir ++ [pys "index.html"]) := by
  unfold url_to_local_path at hp
  split at hp
  · exact Option.noConfusion hp
  · split at hp
    · rename_i hbase
      injection hp with hp
      subst hp
      constructor
      · rw [resolveLex_append_single _ _ (by decide) (by decide)]
        exact listLeads_append _ _
      · intro _
        rfl
    · rename_i hbase
      dsimp only at hp
      split at hp
      · rename_i hchk
        injection hp with hp
        subst hp
        exact ⟨hchk, fun hcon => absurd hcon hbase⟩
      · injection hp with hp
        subst hp
        constructor
        · rw [resolveLex_append_single _ _ (fallback_ne_dotdot P url)
            (fallback_ne_dot P url)]
          exact listLeads_append _ _
        · intro hcon
          exact absurd hcon hbase

/-- C1 witness at a concrete URL (and, vacuously, the base-URL clause). -/
theorem C1_local_paths_contained_witness :
    listLeads (resolveLex [pys "out"])
      (resolveLex [pys "out", pys "e.com", pys "a.png"]) = true ∧
    ((pys "http://e.com/a.png" : PyStr) = pys "http://e.com/" →
      [pys "out", pys "e.com", pys "a.png"] =
        [pys "out"] ++ [pys "index.html"]) :=
  C1_local_paths_contained asciiParams (pys "http://e.com/")
    (pys "http://e.com/a.png") [pys "out"]
    [pys "out", pys "e.com", pys "a.png"] (by decide)


end SC
